import Mathlib

/-!
Verification of the entity-hierarchy subsystem of the zolaris backend.

The development shallowly embeds `internal/services/entity_service.go` and
`internal/repositories/user_repository.go`. The entity store and the user
directory are external collaborators: they are represented as records of
response functions, and each service operation returns, next to its Go
result, the exact ordered list of collaborator calls it performed, so that
statements about which collaborator was consulted (and with which
arguments) can be proved.

Go conventions used in the embedding: a `(T, error)` return value becomes
`Except String T` (the `String` is the error message built by
`fmt.Errorf`); a `map[string]any` details payload becomes an association
list of JSON-like values, with `nil` maps as `Option`; error wrapping with
`%w` becomes string concatenation of the wrapping text with the wrapped
message.
-/

namespace Zolaris

/-- JSON-like value standing for Go's `any` inside a `map[string]any`
details payload. Only the shape matters to the service code: it type-asserts
`.(string)`, so the embedding distinguishes strings from everything else. -/
inductive JValue where
  | str (s : String)
  | num (n : Int)
  | boolean (b : Bool)
  | null
  deriving DecidableEq, Repr

/-- A Go `map[string]any` details payload, as an association list. -/
abbrev Details := List (String × JValue)

/-- Lookup of `details[key]` with its `ok` flag: `none` models `ok = false`. -/
def lookupDetail (d : Details) (key : String) : Option JValue :=
  match d with
  | [] => none
  | (k, v) :: rest => if k = key then some v else lookupDetail rest key

/-- One call made to an external collaborator (entity store or user
directory), with the exact arguments the service passed. -/
inductive Call where
  | getCategoryIDByEntityID (entityId : String)
  | getCategoryType (categoryId : String)
  | createSub (categoryId entityName userId : String) (details : Details)
      (parentEntityId : String)
  | createRoot (categoryId entityName userId : String) (details : Details)
  | checkEntityPresence (userId : String)
  | getEntityHierarchy (rootEntityId : String)
  | listEntityChildren (entityId : String) (level : Int) (categoryType : String)
  | getChildEntities (entityId : String) (recursive : Bool)
  | updateUserParentID (userId : String) (parentId : Option String)
  deriving DecidableEq, Repr

/-- The `repositories.EntityRepository` interface consumed by the service:
each method is a pure response function (the store's answer for given
arguments). Entity collections are represented by their identifier lists
and the hierarchy document by a details-shaped document; the service only
passes these through. -/
structure EntityRepository where
  GetCategoryIDByEntityID : String → Except String String
  GetCategoryType : String → Except String String
  CreateSubEntity : String → String → String → Details → String → Except String String
  CreateRootEntity : String → String → String → Details → Except String String
  CheckEntityPresence : String → Except String Bool
  GetEntityHierarchy : String → Except String Details
  ListEntityChildren : String → Int → String → Except String (List String)
  GetChildEntities : String → Bool → Except String (List String)

/-- The `repositories.UserRepositoryInterface` surface the entity service
uses: the user directory's `SetParent` operation. -/
structure UserRepositoryInterface where
  UpdateUserParentID : String → Option String → Except String Unit

namespace EntityService

/-- Embeds `EntityService.CheckEntityExists`: empty user id fails with a
validation error before any call; otherwise the result is the store's
presence answer, after exactly one `CheckEntityPresence` call. -/
def CheckEntityExists (repo : EntityRepository) (userId : String) :
    Except String Bool × List Call :=
  if userId = "" then
    (.error "user ID cannot be empty", [])
  else
    (repo.CheckEntityPresence userId, [.checkEntityPresence userId])

/-- Embeds `EntityService.CreateRootEntity`: validates category id and name,
defaults a nil details map to empty, then delegates to the store. -/
def CreateRootEntity (repo : EntityRepository)
    (categoryId entityName userId : String) (details : Option Details) :
    Except String String × List Call :=
  if categoryId = "" then
    (.error "category ID cannot be empty", [])
  else if entityName = "" then
    (.error "entity name cannot be empty", [])
  else
    let d := details.getD []
    (repo.CreateRootEntity categoryId entityName userId d,
     [.createRoot categoryId entityName userId d])

/-- Embeds `EntityService.CreateSubEntity` step by step: validation, the
three category resolutions, persistence, then the conditional cross-link
into the user directory when both category types are "user". The message of
the `subuser_id not found` error reproduces Go's rendering of `%w` applied
to the non-error string `parentCategoryType`. -/
def CreateSubEntity (repo : EntityRepository) (userRepo : UserRepositoryInterface)
    (categoryId entityName userId : String) (details : Option Details)
    (parentEntityID : String) : Except String String × List Call :=
  if categoryId = "" then
    (.error "category ID cannot be empty", [])
  else if entityName = "" then
    (.error "entity name cannot be empty", [])
  else
    let d := details.getD []
    match repo.GetCategoryIDByEntityID parentEntityID with
    | .error e =>
        (.error ("failed to get parent's category ID: " ++ e),
         [.getCategoryIDByEntityID parentEntityID])
    | .ok parentCategoryID =>
      match repo.GetCategoryType parentCategoryID with
      | .error e =>
          (.error ("failed to get parent's category type: " ++ e),
           [.getCategoryIDByEntityID parentEntityID,
            .getCategoryType parentCategoryID])
      | .ok parentCategoryType =>
        match repo.GetCategoryType categoryId with
        | .error e =>
            (.error ("failed to get parent's category type: " ++ e),
             [.getCategoryIDByEntityID parentEntityID,
              .getCategoryType parentCategoryID,
              .getCategoryType categoryId])
        | .ok currentCategoryType =>
          match repo.CreateSubEntity categoryId entityName userId d parentEntityID with
          | .error e =>
              (.error ("failed to create sub-entity: " ++ e),
               [.getCategoryIDByEntityID parentEntityID,
                .getCategoryType parentCategoryID,
                .getCategoryType categoryId,
                .createSub categoryId entityName userId d parentEntityID])
          | .ok subentityID =>
            let trace₄ : List Call :=
              [.getCategoryIDByEntityID parentEntityID,
               .getCategoryType parentCategoryID,
               .getCategoryType categoryId,
               .createSub categoryId entityName userId d parentEntityID]
            if parentCategoryType = "user" ∧ currentCategoryType = "user" then
              match lookupDetail d "subuser_id" with
              | none =>
                  (.error ("subuser_id not found in details : %!w(string=" ++
                    parentCategoryType ++ ")"), trace₄)
              | some subuserRaw =>
                match subuserRaw with
                | .str subuserID =>
                    match userRepo.UpdateUserParentID subuserID (some parentEntityID) with
                    | .error e =>
                        (.error ("failed to update user parent ID: " ++ e),
                         trace₄ ++ [.updateUserParentID subuserID (some parentEntityID)])
                    | .ok _ =>
                        (.ok subentityID,
                         trace₄ ++ [.updateUserParentID subuserID (some parentEntityID)])
                | _ => (.error "subuser_id must be a string", trace₄)
            else
              (.ok subentityID, trace₄)

/-- Embeds `EntityService.GetChildEntities`: validates the entity id, then
delegates. -/
def GetChildEntities (repo : EntityRepository) (entityId : String)
    (recursive : Bool) : Except String (List String) × List Call :=
  if entityId = "" then
    (.error "entity ID cannot be empty", [])
  else
    (repo.GetChildEntities entityId recursive,
     [.getChildEntities entityId recursive])

/-- Embeds `EntityService.GetEntityHierarchy`: validates the root entity id,
then delegates. -/
def GetEntityHierarchy (repo : EntityRepository) (rootEntityId : String) :
    Except String Details × List Call :=
  if rootEntityId = "" then
    (.error "root entity ID cannot be empty", [])
  else
    (repo.GetEntityHierarchy rootEntityId, [.getEntityHierarchy rootEntityId])

/-- Embeds `EntityService.ListEntityChildren`: validates the entity id and
the level (`level < -1` is rejected), then delegates with level and
category-type filter unchanged. -/
def ListEntityChildren (repo : EntityRepository) (entityId : String)
    (level : Int) (categoryType : String) :
    Except String (List String) × List Call :=
  if entityId = "" then
    (.error "entity ID cannot be empty", [])
  else if level < -1 then
    (.error "invalid level: must be -1 (all levels), 0 (direct children only), or a positive integer",
     [])
  else
    (repo.ListEntityChildren entityId level categoryType,
     [.listEntityChildren entityId level categoryType])

end EntityService

/-- The calls of a trace addressed to the user directory. -/
def isUserDirCall : Call → Bool
  | .updateUserParentID _ _ => true
  | _ => false

/-- Restriction of a collaborator-call trace to user-directory calls. -/
def userDirCalls (tr : List Call) : List Call := tr.filter isUserDirCall

/-- A row of the `z_users` table, restricted to the columns
`UpdateUserParentID` touches. -/
structure URow where
  userId : String
  parentId : Option String
  deriving DecidableEq, Repr

namespace UserRepository

/-- Embeds `UserRepository.UpdateUserParentID` from `user_repository.go`
with a connected database pool. The UPDATE statement sets `parent_id` on
every row whose `user_id` matches; `rowsAffected` is computed as the code
checks it, but a zero count only produces a log line — the function still
returns success. -/
def UpdateUserParentID (table : List URow) (userID : String)
    (parentID : Option String) : Except String (List URow) :=
  let updated := table.map fun u =>
    if u.userId = userID then { u with parentId := parentID } else u
  let rowsAffected := (table.filter fun u => u.userId = userID).length
  if rowsAffected = 0 then
    -- only `log.Printf("Warning: No user found ...")`; no error is returned
    .ok updated
  else
    .ok updated

end UserRepository

/-- A user directory backed by a `z_users` table snapshot, discarding the
updated table as the service does: only success or failure flows back. -/
def userRepoOfTable (table : List URow) : UserRepositoryInterface :=
  ⟨fun uid pid => (UserRepository.UpdateUserParentID table uid pid).map fun _ => ()⟩

/-- An entity record, as §3 of the spec describes the persisted shape
(identifier, name, category, optional parent, owner, depth, details). -/
structure Entity where
  id : String
  name : String
  categoryId : String
  parentId : Option String
  ownerUserId : String
  depth : Nat
  details : Details
  deriving DecidableEq, Repr

/-- Modelled from the spec: the entity store's `CreateRoot` persistence
step, whose repository implementation is not among the given sources.
"Effect: persists a new Entity with parent = none, depth = 0." The store is
a list of entity records and the new row is prepended. -/
def specStoreCreateRoot (store : List Entity) (newId categoryId entityName userId : String)
    (details : Details) : String × List Entity :=
  (newId,
   { id := newId, name := entityName, categoryId := categoryId,
     parentId := none, ownerUserId := userId, depth := 0,
     details := details } :: store)

/-- Modelled from the spec: the entity store's `CheckPresence(user_id) -> bool`
lookup, whose repository implementation is not among the given sources. A
user id owning no entity answers `false` as a normal result, never an
error. -/
def specStoreCheckPresence (store : List Entity) (userId : String) :
    Except String Bool :=
  .ok (store.any fun e => e.ownerUserId == userId)

/-! ### Concrete collaborator instances used to evaluate the theorems -/

/-- A store in which every category resolves to type "user" and persistence
succeeds with fixed identifiers. -/
def repoBothUser : EntityRepository where
  GetCategoryIDByEntityID := fun _ => .ok "cat-parent"
  GetCategoryType := fun _ => .ok "user"
  CreateSubEntity := fun _ _ _ _ _ => .ok "sub1"
  CreateRootEntity := fun _ _ _ _ => .ok "root1"
  CheckEntityPresence := fun _ => .ok false
  GetEntityHierarchy := fun _ => .ok []
  ListEntityChildren := fun _ _ _ => .ok []
  GetChildEntities := fun _ _ => .ok []

/-- A store in which every category resolves to type "organization". -/
def repoOrg : EntityRepository :=
  { repoBothUser with GetCategoryType := fun _ => .ok "organization" }

/-- A store whose parent-category resolution fails. -/
def repoNoParent : EntityRepository :=
  { repoBothUser with GetCategoryIDByEntityID := fun _ => .error "entity not found" }

/-- A user directory whose `SetParent` always succeeds. -/
def userRepoOk : UserRepositoryInterface := ⟨fun _ _ => .ok ()⟩

/-- A user directory whose `SetParent` always fails. -/
def userRepoDown : UserRepositoryInterface := ⟨fun _ _ => .error "link failure"⟩

/-! ### Claims -/

/-- C1: in `CreateSubEntity` the user directory is invoked only when both
the parent's and the new entity's category types resolve to "user"; on the
success path with both types "user" it receives exactly one `SetParent`
call carrying the `subuser_id` string from the details and the supplied
parent entity id; and whenever either resolved type differs from "user" it
is never called, whatever the details hold. -/
theorem c1_cross_link_iff_both_user
    (repo : EntityRepository) (userRepo : UserRepositoryInterface)
    (categoryId entityName userId : String) (details : Option Details)
    (parentEntityID : String) :
    (userDirCalls (EntityService.CreateSubEntity repo userRepo categoryId entityName
        userId details parentEntityID).2 ≠ [] →
      ∃ pcid, repo.GetCategoryIDByEntityID parentEntityID = .ok pcid ∧
        repo.GetCategoryType pcid = .ok "user" ∧
        repo.GetCategoryType categoryId = .ok "user") ∧
    (∀ subentityID pcid,
      (EntityService.CreateSubEntity repo userRepo categoryId entityName userId
          details parentEntityID).1 = .ok subentityID →
      repo.GetCategoryIDByEntityID parentEntityID = .ok pcid →
      repo.GetCategoryType pcid = .ok "user" →
      repo.GetCategoryType categoryId = .ok "user" →
      ∃ subuserID,
        lookupDetail (details.getD []) "subuser_id" = some (.str subuserID) ∧
        userDirCalls (EntityService.CreateSubEntity repo userRepo categoryId
            entityName userId details parentEntityID).2 =
          [.updateUserParentID subuserID (some parentEntityID)]) ∧
    (∀ pcid parentType currentType,
      repo.GetCategoryIDByEntityID parentEntityID = .ok pcid →
      repo.GetCategoryType pcid = .ok parentType →
      repo.GetCategoryType categoryId = .ok currentType →
      ¬(parentType = "user" ∧ currentType = "user") →
      userDirCalls (EntityService.CreateSubEntity repo userRepo categoryId
          entityName userId details parentEntityID).2 = []) := by
  refine ⟨?_, ?_, ?_⟩
  · intro hne
    by_cases hc : categoryId = ""
    · simp [EntityService.CreateSubEntity, hc, userDirCalls] at hne
    by_cases hn : entityName = ""
    · simp [EntityService.CreateSubEntity, hc, hn, userDirCalls] at hne
    rcases h₁ : repo.GetCategoryIDByEntityID parentEntityID with e | pcid
    · simp [EntityService.CreateSubEntity, hc, hn, h₁, userDirCalls,
        isUserDirCall] at hne
    rcases h₂ : repo.GetCategoryType pcid with e | parentType
    · simp [EntityService.CreateSubEntity, hc, hn, h₁, h₂, userDirCalls,
        isUserDirCall] at hne
    rcases h₃ : repo.GetCategoryType categoryId with e | currentType
    · simp [EntityService.CreateSubEntity, hc, hn, h₁, h₂, h₃, userDirCalls,
        isUserDirCall] at hne
    rcases h₄ : repo.CreateSubEntity categoryId entityName userId
        (details.getD []) parentEntityID with e | sid
    · simp [EntityService.CreateSubEntity, hc, hn, h₁, h₂, h₃, h₄, userDirCalls,
        isUserDirCall] at hne
    by_cases hu : parentType = "user" ∧ currentType = "user"
    · exact ⟨pcid, rfl, hu.1 ▸ h₂, by rw [hu.2]⟩
    · simp [EntityService.CreateSubEntity, hc, hn, h₁, h₂, h₃, h₄, hu,
        userDirCalls, isUserDirCall] at hne
  · intro subentityID pcid hres h₁ h₂ h₃
    by_cases hc : categoryId = ""
    · simp [EntityService.CreateSubEntity, hc] at hres
    by_cases hn : entityName = ""
    · simp [EntityService.CreateSubEntity, hc, hn] at hres
    rcases h₄ : repo.CreateSubEntity categoryId entityName userId
        (details.getD []) parentEntityID with e | sid
    · simp [EntityService.CreateSubEntity, hc, hn, h₁, h₂, h₃, h₄] at hres
    rcases h₅ : lookupDetail (details.getD []) "subuser_id" with _ | v
    · simp [EntityService.CreateSubEntity, hc, hn, h₁, h₂, h₃, h₄, h₅] at hres
    rcases v with su | n | b | _
    · rcases h₆ : userRepo.UpdateUserParentID su (some parentEntityID) with e | u
      · simp [EntityService.CreateSubEntity, hc, hn, h₁, h₂, h₃, h₄, h₅, h₆]
          at hres
      · exact ⟨su, rfl, by
          simp [EntityService.CreateSubEntity, hc, hn, h₁, h₂, h₃, h₄, h₅, h₆,
            userDirCalls, isUserDirCall]⟩
    · simp [EntityService.CreateSubEntity, hc, hn, h₁, h₂, h₃, h₄, h₅] at hres
    · simp [EntityService.CreateSubEntity, hc, hn, h₁, h₂, h₃, h₄, h₅] at hres
    · simp [EntityService.CreateSubEntity, hc, hn, h₁, h₂, h₃, h₄, h₅] at hres
  · intro pcid parentType currentType h₁ h₂ h₃ hu
    by_cases hc : categoryId = ""
    · simp [EntityService.CreateSubEntity, hc, userDirCalls]
    by_cases hn : entityName = ""
    · simp [EntityService.CreateSubEntity, hc, hn, userDirCalls]
    rcases h₄ : repo.CreateSubEntity categoryId entityName userId
        (details.getD []) parentEntityID with e | sid
    · simp [EntityService.CreateSubEntity, hc, hn, h₁, h₂, h₃, h₄, userDirCalls,
        isUserDirCall]
    · simp [EntityService.CreateSubEntity, hc, hn, h₁, h₂, h₃, h₄, hu,
        userDirCalls, isUserDirCall]

/-- Witness for C1: with every category of type "organization", a details
payload that does carry `subuser_id` still produces no user-directory
call. -/
theorem c1_witness :
    userDirCalls (EntityService.CreateSubEntity repoOrg userRepoOk "cat1" "node"
        "owner1" (some [("subuser_id", JValue.str "u42")]) "e7").2 = [] :=
  (c1_cross_link_iff_both_user repoOrg userRepoOk "cat1" "node" "owner1"
      (some [("subuser_id", JValue.str "u42")]) "e7").2.2
    "cat-parent" "organization" "organization" rfl rfl rfl (by decide)

/-- C2, counterexample: with a store that persists the sub-entity as "sub1"
under parent "e7" and both categories of type "user", the call succeeds,
yet the single user-directory call carries "e7" — the supplied parent
entity id — and no call carrying the new entity's id "sub1" occurs. The
claim that the subuser's parent pointer is set to the newly created
entity's id is therefore false on this input. -/
theorem c2_counterexample :
    (EntityService.CreateSubEntity repoBothUser userRepoOk "cat1" "node" "owner1"
        (some [("subuser_id", JValue.str "u42")]) "e7").1 = .ok "sub1" ∧
    userDirCalls (EntityService.CreateSubEntity repoBothUser userRepoOk "cat1" "node"
        "owner1" (some [("subuser_id", JValue.str "u42")]) "e7").2 =
      [Call.updateUserParentID "u42" (some "e7")] ∧
    Call.updateUserParentID "u42" (some "sub1") ∉
      (EntityService.CreateSubEntity repoBothUser userRepoOk "cat1" "node" "owner1"
        (some [("subuser_id", JValue.str "u42")]) "e7").2 := by
  refine ⟨rfl, rfl, by decide⟩

/-- C2, amended: when both category types resolve to "user", persistence
succeeds and details carry a string `subuser_id`, the engine sets that
subuser's parent pointer to the supplied parent entity id (not to the id
returned for the new sub-entity), and returns the new id. -/
theorem c2_sets_pointer_to_parent_entity_id
    (repo : EntityRepository) (userRepo : UserRepositoryInterface)
    (categoryId entityName userId : String) (details : Option Details)
    (parentEntityID pcid subentityID subuserID : String)
    (hc : categoryId ≠ "") (hn : entityName ≠ "")
    (h₁ : repo.GetCategoryIDByEntityID parentEntityID = .ok pcid)
    (h₂ : repo.GetCategoryType pcid = .ok "user")
    (h₃ : repo.GetCategoryType categoryId = .ok "user")
    (h₄ : repo.CreateSubEntity categoryId entityName userId (details.getD [])
        parentEntityID = .ok subentityID)
    (h₅ : lookupDetail (details.getD []) "subuser_id" = some (.str subuserID))
    (h₆ : userRepo.UpdateUserParentID subuserID (some parentEntityID) = .ok ()) :
    EntityService.CreateSubEntity repo userRepo categoryId entityName userId
        details parentEntityID =
      (.ok subentityID,
       [.getCategoryIDByEntityID parentEntityID,
        .getCategoryType pcid,
        .getCategoryType categoryId,
        .createSub categoryId entityName userId (details.getD []) parentEntityID,
        .updateUserParentID subuserID (some parentEntityID)]) := by
  simp [EntityService.CreateSubEntity, hc, hn, h₁, h₂, h₃, h₄, h₅, h₆]

/-- Witness for the amended C2 at a concrete input: the pointer target is
the supplied parent "e7" while the new entity's id is "sub1". -/
theorem c2_witness :
    EntityService.CreateSubEntity repoBothUser userRepoOk "cat1" "node" "owner1"
        (some [("subuser_id", JValue.str "u42")]) "e7" =
      (.ok "sub1",
       [.getCategoryIDByEntityID "e7",
        .getCategoryType "cat-parent",
        .getCategoryType "cat1",
        .createSub "cat1" "node" "owner1" [("subuser_id", JValue.str "u42")] "e7",
        .updateUserParentID "u42" (some "e7")]) :=
  c2_sets_pointer_to_parent_entity_id repoBothUser userRepoOk "cat1" "node"
    "owner1" (some [("subuser_id", JValue.str "u42")]) "e7" "cat-parent" "sub1"
    "u42" (by decide) (by decide) rfl rfl rfl rfl rfl rfl

/-- C3: once the store's `CreateSubEntity` has returned an id, each of the
three post-persistence failure modes — missing `subuser_id`, non-string
`subuser_id`, failing `SetParent` — makes the operation return an error,
while the collaborator trace still ends with (and keeps) the `createSub`
persistence call and contains no further entity-store call: no compensating
deletion or rollback happens. -/
theorem c3_persisted_entity_remains_on_late_failure
    (repo : EntityRepository) (userRepo : UserRepositoryInterface)
    (categoryId entityName userId : String) (details : Option Details)
    (parentEntityID pcid subentityID : String)
    (hc : categoryId ≠ "") (hn : entityName ≠ "")
    (h₁ : repo.GetCategoryIDByEntityID parentEntityID = .ok pcid)
    (h₂ : repo.GetCategoryType pcid = .ok "user")
    (h₃ : repo.GetCategoryType categoryId = .ok "user")
    (h₄ : repo.CreateSubEntity categoryId entityName userId (details.getD [])
        parentEntityID = .ok subentityID) :
    (lookupDetail (details.getD []) "subuser_id" = none →
      ∃ msg, EntityService.CreateSubEntity repo userRepo categoryId entityName
          userId details parentEntityID =
        (.error msg,
         [.getCategoryIDByEntityID parentEntityID,
          .getCategoryType pcid,
          .getCategoryType categoryId,
          .createSub categoryId entityName userId (details.getD []) parentEntityID])) ∧
    (∀ v, lookupDetail (details.getD []) "subuser_id" = some v →
      (∀ s, v ≠ JValue.str s) →
      EntityService.CreateSubEntity repo userRepo categoryId entityName userId
          details parentEntityID =
        (.error "subuser_id must be a string",
         [.getCategoryIDByEntityID parentEntityID,
          .getCategoryType pcid,
          .getCategoryType categoryId,
          .createSub categoryId entityName userId (details.getD []) parentEntityID])) ∧
    (∀ subuserID e, lookupDetail (details.getD []) "subuser_id" =
        some (.str subuserID) →
      userRepo.UpdateUserParentID subuserID (some parentEntityID) = .error e →
      EntityService.CreateSubEntity repo userRepo categoryId entityName userId
          details parentEntityID =
        (.error ("failed to update user parent ID: " ++ e),
         [.getCategoryIDByEntityID parentEntityID,
          .getCategoryType pcid,
          .getCategoryType categoryId,
          .createSub categoryId entityName userId (details.getD []) parentEntityID,
          .updateUserParentID subuserID (some parentEntityID)])) := by
  refine ⟨?_, ?_, ?_⟩
  · intro h₅
    exact ⟨"subuser_id not found in details : %!w(string=user)", by
      simp [EntityService.CreateSubEntity, hc, hn, h₁, h₂, h₃, h₄, h₅]⟩
  · intro v h₅ hv
    rcases v with su | n | b | _
    · exact absurd rfl (hv su)
    · simp [EntityService.CreateSubEntity, hc, hn, h₁, h₂, h₃, h₄, h₅]
    · simp [EntityService.CreateSubEntity, hc, hn, h₁, h₂, h₃, h₄, h₅]
    · simp [EntityService.CreateSubEntity, hc, hn, h₁, h₂, h₃, h₄, h₅]
  · intro subuserID e h₅ h₆
    simp [EntityService.CreateSubEntity, hc, hn, h₁, h₂, h₃, h₄, h₅, h₆]

/-- Witness for C3: a number-valued `subuser_id` after successful
persistence yields the string-validation error, with the persistence call
still in the trace and nothing after it. -/
theorem c3_witness :
    EntityService.CreateSubEntity repoBothUser userRepoOk "cat1" "node" "owner1"
        (some [("subuser_id", JValue.num 7)]) "e7" =
      (.error "subuser_id must be a string",
       [.getCategoryIDByEntityID "e7",
        .getCategoryType "cat-parent",
        .getCategoryType "cat1",
        .createSub "cat1" "node" "owner1" [("subuser_id", JValue.num 7)] "e7"]) :=
  (c3_persisted_entity_remains_on_late_failure repoBothUser userRepoOk "cat1"
      "node" "owner1" (some [("subuser_id", JValue.num 7)]) "e7" "cat-parent"
      "sub1" (by decide) (by decide) rfl rfl rfl rfl).2.1
    (JValue.num 7) rfl (by intro s; exact fun h => JValue.noConfusion h)

/-- C4: with both category types "user" and persistence done, a missing
`subuser_id` fails with an error whose message starts with (hence contains)
"subuser_id not found", and a present but non-string `subuser_id` fails
with a message containing "must be a string"; in both cases the user
directory receives no call. -/
theorem c4_subuser_id_validation_messages
    (repo : EntityRepository) (userRepo : UserRepositoryInterface)
    (categoryId entityName userId : String) (details : Option Details)
    (parentEntityID pcid subentityID : String)
    (hc : categoryId ≠ "") (hn : entityName ≠ "")
    (h₁ : repo.GetCategoryIDByEntityID parentEntityID = .ok pcid)
    (h₂ : repo.GetCategoryType pcid = .ok "user")
    (h₃ : repo.GetCategoryType categoryId = .ok "user")
    (h₄ : repo.CreateSubEntity categoryId entityName userId (details.getD [])
        parentEntityID = .ok subentityID) :
    (lookupDetail (details.getD []) "subuser_id" = none →
      ∃ rest,
        (EntityService.CreateSubEntity repo userRepo categoryId entityName userId
            details parentEntityID).1 =
          .error ("subuser_id not found" ++ rest) ∧
        userDirCalls (EntityService.CreateSubEntity repo userRepo categoryId
            entityName userId details parentEntityID).2 = []) ∧
    (∀ v, lookupDetail (details.getD []) "subuser_id" = some v →
      (∀ s, v ≠ JValue.str s) →
      ∃ pre post,
        (EntityService.CreateSubEntity repo userRepo categoryId entityName userId
            details parentEntityID).1 =
          .error (pre ++ "must be a string" ++ post) ∧
        userDirCalls (EntityService.CreateSubEntity repo userRepo categoryId
            entityName userId details parentEntityID).2 = []) := by
  constructor
  · intro h₅
    have hmain : (EntityService.CreateSubEntity repo userRepo categoryId
        entityName userId details parentEntityID).1 =
        .error ("subuser_id not found" ++ " in details : %!w(string=user)") := by
      simp [EntityService.CreateSubEntity, hc, hn, h₁, h₂, h₃, h₄, h₅]
    exact ⟨" in details : %!w(string=user)", hmain, by
      simp [EntityService.CreateSubEntity, hc, hn, h₁, h₂, h₃, h₄, h₅,
        userDirCalls, isUserDirCall]⟩
  · intro v h₅ hv
    have hmain : (EntityService.CreateSubEntity repo userRepo categoryId
        entityName userId details parentEntityID).1 =
        .error ("subuser_id " ++ "must be a string" ++ "") := by
      rcases v with su | n | b | _
      · exact absurd rfl (hv su)
      all_goals simp [EntityService.CreateSubEntity, hc, hn, h₁, h₂, h₃, h₄, h₅]
    refine ⟨"subuser_id ", "", hmain, ?_⟩
    rcases v with su | n | b | _
    · exact absurd rfl (hv su)
    all_goals simp [EntityService.CreateSubEntity, hc, hn, h₁, h₂, h₃, h₄, h₅,
      userDirCalls, isUserDirCall]

/-- Witness for C4: details without a `subuser_id` key fail with a message
extending "subuser_id not found" and without any user-directory call. -/
theorem c4_witness :
    ∃ rest,
      (EntityService.CreateSubEntity repoBothUser userRepoOk "cat1" "node"
          "owner1" (some [("other", JValue.null)]) "e7").1 =
        .error ("subuser_id not found" ++ rest) ∧
      userDirCalls (EntityService.CreateSubEntity repoBothUser userRepoOk "cat1"
          "node" "owner1" (some [("other", JValue.null)]) "e7").2 = [] :=
  (c4_subuser_id_validation_messages repoBothUser userRepoOk "cat1" "node"
      "owner1" (some [("other", JValue.null)]) "e7" "cat-parent" "sub1"
      (by decide) (by decide) rfl rfl rfl rfl).1 rfl

/-- C5: `CreateSubEntity` runs its collaborator calls in the fixed order
parent-category-id, parent-category-type, own-category-type, persistence,
conditional cross-link; when any of the three resolutions fails the call
returns the corresponding wrapped error and the trace shows the resolution
calls made so far and nothing else — in particular no `createSub`
persistence call. -/
theorem c5_resolution_failure_precedes_persistence
    (repo : EntityRepository) (userRepo : UserRepositoryInterface)
    (categoryId entityName userId : String) (details : Option Details)
    (parentEntityID : String)
    (hc : categoryId ≠ "") (hn : entityName ≠ "") :
    (∀ e, repo.GetCategoryIDByEntityID parentEntityID = .error e →
      EntityService.CreateSubEntity repo userRepo categoryId entityName userId
          details parentEntityID =
        (.error ("failed to get parent's category ID: " ++ e),
         [.getCategoryIDByEntityID parentEntityID])) ∧
    (∀ pcid e, repo.GetCategoryIDByEntityID parentEntityID = .ok pcid →
      repo.GetCategoryType pcid = .error e →
      EntityService.CreateSubEntity repo userRepo categoryId entityName userId
          details parentEntityID =
        (.error ("failed to get parent's category type: " ++ e),
         [.getCategoryIDByEntityID parentEntityID, .getCategoryType pcid])) ∧
    (∀ pcid parentType e, repo.GetCategoryIDByEntityID parentEntityID = .ok pcid →
      repo.GetCategoryType pcid = .ok parentType →
      repo.GetCategoryType categoryId = .error e →
      EntityService.CreateSubEntity repo userRepo categoryId entityName userId
          details parentEntityID =
        (.error ("failed to get parent's category type: " ++ e),
         [.getCategoryIDByEntityID parentEntityID, .getCategoryType pcid,
          .getCategoryType categoryId])) ∧
    (∀ pcid parentType currentType subentityID,
      repo.GetCategoryIDByEntityID parentEntityID = .ok pcid →
      repo.GetCategoryType pcid = .ok parentType →
      repo.GetCategoryType categoryId = .ok currentType →
      repo.CreateSubEntity categoryId entityName userId (details.getD [])
          parentEntityID = .ok subentityID →
      ¬(parentType = "user" ∧ currentType = "user") →
      EntityService.CreateSubEntity repo userRepo categoryId entityName userId
          details parentEntityID =
        (.ok subentityID,
         [.getCategoryIDByEntityID parentEntityID, .getCategoryType pcid,
          .getCategoryType categoryId,
          .createSub categoryId entityName userId (details.getD [])
            parentEntityID])) := by
  refine ⟨?_, ?_, ?_, ?_⟩
  · intro e h₁
    simp [EntityService.CreateSubEntity, hc, hn, h₁]
  · intro pcid e h₁ h₂
    simp [EntityService.CreateSubEntity, hc, hn, h₁, h₂]
  · intro pcid parentType e h₁ h₂ h₃
    simp [EntityService.CreateSubEntity, hc, hn, h₁, h₂, h₃]
  · intro pcid parentType currentType subentityID h₁ h₂ h₃ h₄ hu
    simp [EntityService.CreateSubEntity, hc, hn, h₁, h₂, h₃, h₄, hu]

/-- Witness for C5: a store whose parent lookup fails produces the wrapped
error with a single-resolution trace — the persistence step never ran. -/
theorem c5_witness :
    EntityService.CreateSubEntity repoNoParent userRepoOk "cat1" "node" "owner1"
        none "e7" =
      (.error ("failed to get parent's category ID: " ++ "entity not found"),
       [.getCategoryIDByEntityID "e7"]) :=
  (c5_resolution_failure_precedes_persistence repoNoParent userRepoOk "cat1"
      "node" "owner1" none "e7" (by decide) (by decide)).1
    "entity not found" rfl

/-- C6: `ListEntityChildren` with a non-empty entity id rejects any level
below −1 with a validation error before consulting the store, and for any
level ≥ −1 hands the id, level and category-type filter to the store
unchanged, returning the store's answer. -/
theorem c6_list_children_level_validation
    (repo : EntityRepository) (entityId : String) (level : Int)
    (categoryType : String) (h : entityId ≠ "") :
    (level < -1 →
      EntityService.ListEntityChildren repo entityId level categoryType =
        (.error "invalid level: must be -1 (all levels), 0 (direct children only), or a positive integer",
         [])) ∧
    (-1 ≤ level →
      EntityService.ListEntityChildren repo entityId level categoryType =
        (repo.ListEntityChildren entityId level categoryType,
         [.listEntityChildren entityId level categoryType])) := by
  constructor
  · intro hl
    simp [EntityService.ListEntityChildren, h, hl]
  · intro hl
    simp [EntityService.ListEntityChildren, h, not_lt.mpr hl]

/-- Witness for C6: level −2 is rejected without any store call. -/
theorem c6_witness :
    EntityService.ListEntityChildren repoBothUser "e7" (-2) "user" =
      (.error "invalid level: must be -1 (all levels), 0 (direct children only), or a positive integer",
       []) :=
  (c6_list_children_level_validation repoBothUser "e7" (-2) "user"
      (by decide)).1 (by decide)

/-- C7: `CreateRootEntity` rejects an empty category id or name with a
validation error before any store call; a nil details map is replaced by
the empty document before delegation; otherwise exactly one `createRoot`
store call is made with the given arguments and its answer returned — and
the modelled store persists the new entity as a root: parent `none`, depth
0. -/
theorem c7_create_root_entity
    (repo : EntityRepository) (categoryId entityName userId : String)
    (details : Option Details) :
    (categoryId = "" →
      EntityService.CreateRootEntity repo categoryId entityName userId details =
        (.error "category ID cannot be empty", [])) ∧
    (categoryId ≠ "" → entityName = "" →
      EntityService.CreateRootEntity repo categoryId entityName userId details =
        (.error "entity name cannot be empty", [])) ∧
    (categoryId ≠ "" → entityName ≠ "" →
      EntityService.CreateRootEntity repo categoryId entityName userId details =
        (repo.CreateRootEntity categoryId entityName userId (details.getD []),
         [.createRoot categoryId entityName userId (details.getD [])]) ∧
      (details = none → details.getD [] = [])) ∧
    (∀ (store : List Entity) (newId : String) (d : Details),
      ∃ e, (specStoreCreateRoot store newId categoryId entityName userId d).2 =
          e :: store ∧
        e.parentId = none ∧ e.depth = 0 ∧
        (specStoreCreateRoot store newId categoryId entityName userId d).1 =
          newId) := by
  refine ⟨?_, ?_, ?_, ?_⟩
  · intro hc
    simp [EntityService.CreateRootEntity, hc]
  · intro hc hn
    simp [EntityService.CreateRootEntity, hc, hn]
  · intro hc hn
    refine ⟨by simp [EntityService.CreateRootEntity, hc, hn], ?_⟩
    intro hd
    simp [hd]
  · intro store newId d
    exact ⟨_, rfl, rfl, rfl, rfl⟩

/-- Witness for C7: a nil details map reaches the store as the empty
document and the store's id comes back. -/
theorem c7_witness :
    EntityService.CreateRootEntity repoBothUser "cat1" "node" "owner1" none =
      (.ok "root1", [.createRoot "cat1" "node" "owner1" []]) :=
  ((c7_create_root_entity repoBothUser "cat1" "node" "owner1" none).2.2.1
    (by decide) (by decide)).1

/-- C8: `CheckEntityExists` on the empty user id fails with a validation
error and no store call; on any non-empty id the answer is exactly the
store's presence answer after exactly one live `checkEntityPresence` call
(no cache sits in between); and the modelled presence check answers `ok
false`, not an error, for an id owning no entity. -/
theorem c8_check_entity_exists
    (repo : EntityRepository) (userId : String) :
    (EntityService.CheckEntityExists repo "" =
      (.error "user ID cannot be empty", [])) ∧
    (userId ≠ "" →
      EntityService.CheckEntityExists repo userId =
        (repo.CheckEntityPresence userId, [.checkEntityPresence userId])) ∧
    (∀ (store : List Entity), (∀ e ∈ store, e.ownerUserId ≠ userId) →
      specStoreCheckPresence store userId = .ok false) := by
  refine ⟨rfl, ?_, ?_⟩
  · intro h
    simp [EntityService.CheckEntityExists, h]
  · intro store hstore
    simp only [specStoreCheckPresence, Except.ok.injEq]
    rw [List.any_eq_false]
    intro e he
    simpa using hstore e he

/-- Witness for C8: a store holding only an entity of "alice" answers
`ok false` — not an error — for "nonexistent-id", and the service passes a
non-empty id straight to the store. -/
theorem c8_witness :
    EntityService.CheckEntityExists repoBothUser "nonexistent-id" =
      (.ok false, [.checkEntityPresence "nonexistent-id"]) ∧
    specStoreCheckPresence
        [{ id := "e1", name := "n", categoryId := "c", parentId := none,
           ownerUserId := "alice", depth := 0, details := [] }]
        "nonexistent-id" = .ok false :=
  ⟨(c8_check_entity_exists repoBothUser "nonexistent-id").2.1 (by decide),
   (c8_check_entity_exists repoBothUser "nonexistent-id").2.2
     [{ id := "e1", name := "n", categoryId := "c", parentId := none,
        ownerUserId := "alice", depth := 0, details := [] }] (by decide)⟩

/-- `UpdateUserParentID` on a table snapshot always reports success: the
zero-rows-affected branch only logs. -/
theorem updateUserParentID_always_ok (table : List URow) (userID : String)
    (parentID : Option String) :
    UserRepository.UpdateUserParentID table userID parentID =
      .ok (table.map fun u =>
        if u.userId = userID then { u with parentId := parentID } else u) := by
  simp [UserRepository.UpdateUserParentID]

/-- C9: `UpdateUserParentID` succeeds even when no row matches the user id
— the zero-rows-affected update leaves the table unchanged and returns no
error — and consequently a `CreateSubEntity` cross-link naming such a
nonexistent subuser completes as if re-parenting succeeded. -/
theorem c9_missing_subuser_update_succeeds
    (table : List URow) (userID : String) (parentID : Option String)
    (h : ∀ u ∈ table, u.userId ≠ userID) :
    UserRepository.UpdateUserParentID table userID parentID = .ok table ∧
    (∀ (repo : EntityRepository)
      (categoryId entityName userId parentEntityID pcid subentityID : String)
      (d : Details),
      categoryId ≠ "" → entityName ≠ "" →
      repo.GetCategoryIDByEntityID parentEntityID = .ok pcid →
      repo.GetCategoryType pcid = .ok "user" →
      repo.GetCategoryType categoryId = .ok "user" →
      repo.CreateSubEntity categoryId entityName userId d parentEntityID =
        .ok subentityID →
      lookupDetail d "subuser_id" = some (.str userID) →
      (EntityService.CreateSubEntity repo (userRepoOfTable table) categoryId
          entityName userId (some d) parentEntityID).1 = .ok subentityID) := by
  constructor
  · rw [updateUserParentID_always_ok]
    congr 1
    have : ∀ u ∈ table,
        (if u.userId = userID then { u with parentId := parentID } else u) =
          id u := by
      intro u hu
      simp [h u hu]
    rw [List.map_congr_left this, List.map_id]
  · intro repo categoryId entityName userId parentEntityID pcid subentityID d
      hc hn h₁ h₂ h₃ h₄ h₅
    have hud : (userRepoOfTable table).UpdateUserParentID userID
        (some parentEntityID) = .ok () := by
      simp [userRepoOfTable, updateUserParentID_always_ok, Except.map]
    simp [EntityService.CreateSubEntity, hc, hn, h₁, h₂, h₃, h₄, h₅, hud]

/-- Witness for C9: a table holding only "bob" lets a cross-link naming the
absent "ghost" succeed end to end. -/
theorem c9_witness :
    UserRepository.UpdateUserParentID [⟨"bob", none⟩] "ghost" (some "e7") =
      .ok [⟨"bob", none⟩] ∧
    (EntityService.CreateSubEntity repoBothUser (userRepoOfTable [⟨"bob", none⟩])
        "cat1" "node" "owner1" (some [("subuser_id", JValue.str "ghost")])
        "e7").1 = .ok "sub1" :=
  ⟨(c9_missing_subuser_update_succeeds [⟨"bob", none⟩] "ghost" (some "e7")
      (by decide)).1,
   (c9_missing_subuser_update_succeeds [⟨"bob", none⟩] "ghost" (some "e7")
      (by decide)).2 repoBothUser "cat1" "node" "owner1" "e7" "cat-parent"
     "sub1" [("subuser_id", JValue.str "ghost")] (by decide) (by decide)
     rfl rfl rfl rfl rfl⟩

/-- C10: `GetEntityHierarchy` with an empty root entity id fails with a
validation error and performs no store call at all. -/
theorem c10_hierarchy_rejects_empty_id (repo : EntityRepository) :
    EntityService.GetEntityHierarchy repo "" =
      (.error "root entity ID cannot be empty", []) := rfl

end Zolaris
